import Mathlib

/-!
Shallow embedding of the movement subsystem of the repository:
`src/utils/services/movement.py` (class MovementService),
`src/utils/services/graphdb.py` (class GraphDB), and the embedding helper
`generate_embedding_768` from `src/utils/services/divide.py`.

External collaborators are parameters of an `Env` record: the two LLM
prompt contracts (destination phrase, direction and distance), the Python
float parser and the two-decimal float formatter, and the sentence
embedding model. The Neo4j store is a `StoreState` value threaded through
the operations; a store transport fault is injected through the
`readFault` and `writeFault` flags (a flagged `_run_read` or `_run_write`
raises). Fallible Python code returns `Option` or `Except`; an uncaught
Python exception is `Except.error`. Machine floats are modelled as real
numbers, and the distances produced by the Python float parser as
rationals. Exceptions modelled are Exception-level faults: the Python
code catches `Exception`, and BaseException-level interrupts (signals,
KeyboardInterrupt) are out of scope of the embedding.
-/

/-- Leading-segment test on character lists (helper for substring
containment). -/
def leadEq : List Char → List Char → Bool
  | [], _ => true
  | _ :: _, [] => false
  | a :: as, b :: bs => a == b && leadEq as bs

/-- Substring containment on character lists: `hasSub needle hay` holds when
`needle` occurs contiguously inside `hay`. -/
def hasSub (needle : List Char) : List Char → Bool
  | [] => leadEq needle []
  | c :: rest => leadEq needle (c :: rest) || hasSub needle rest

/-- Case-insensitive containment, embedding the Cypher predicate
`toLower(s.description) CONTAINS toLower($desc)` used by
`GraphDB.find_scene_by_description` (case mapping at the character
level). -/
def strContainsLower (hay needle : String) : Bool :=
  hasSub (needle.toList.map Char.toLower) (hay.toList.map Char.toLower)

/-- The Python `str.strip()`: drop whitespace from both ends. -/
def pyStrip (s : String) : String :=
  (((s.toList.dropWhile Char.isWhitespace).reverse.dropWhile
      Char.isWhitespace).reverse).asString

/-- The Python `str.split(",")` on the character list: split at every comma,
keeping empty segments (so a string without a comma yields one segment). -/
def splitComma : List Char → List (List Char)
  | [] => [[]]
  | a :: rest =>
    if a == ',' then [] :: splitComma rest
    else
      match splitComma rest with
      | g :: gs => (a :: g) :: gs
      | [] => [[a]]

/-- External collaborators of the movement subsystem, fixed for one request.
`destOracle` and `moveOracle` give the chat-completion reply body for the
two prompt contracts as a function of the command (`none` is a non-200
status, a timeout or a transport fault); `parseFloat` embeds the Python
`float` parser (machine float values are rational); `embedText` embeds
`model.encode` from `divide.py`; `fmt2` embeds the two-decimal float
formatting used in the success message; `readFault` and `writeFault`
inject store transport faults into `_run_read` and `_run_write`. -/
structure Env where
  destOracle : String → Option String
  moveOracle : String → Option String
  parseFloat : String → Option ℚ
  embedText : String → Option (List ℝ)
  fmt2 : ℝ → String
  readFault : Bool
  writeFault : Bool

/-- A `User` node in the graph store; the `r` and `theta` properties may be
absent, as `GraphDB.get_user_position` checks for `None` fields. -/
structure UserNode where
  id : String
  r : Option ℝ
  theta : Option ℝ

/-- A `Scene` node with its polar coordinates and the optionally stored
`description_vector`. -/
structure Scene where
  id : String
  description : String
  r : ℝ
  theta : ℝ
  description_vector : Option (List ℝ)

/-- The graph store contents. -/
structure StoreState where
  users : List UserNode
  scenes : List Scene

/-- A scene record as returned to `MovementService` by the store queries;
the `distance` field is present only on `find_nearby_scenes` results. -/
structure SceneHit where
  id : String
  description : String
  position : ℝ × ℝ
  distance : Option ℝ

/-- The structured result dictionary of `MovementService.process_movement`. -/
structure MovementResult where
  success : Bool
  message : String
  new_position : Option (ℝ × ℝ)
  nearby_scenes : Option (List SceneHit)

/-- First `User` node matching the given id, as `MATCH (u:User ...)`
followed by taking `result[0]`. -/
def lookupUser (st : StoreState) (uid : String) : Option UserNode :=
  st.users.find? (fun u => u.id == uid)

/-- Embeds the Cypher `MATCH (u:User ...) SET u.r = $r, u.theta = $theta` of
`GraphDB.update_user_position`: every matching node is updated; when no
node matches, the write is a no-op. -/
def setUserPos (st : StoreState) (uid : String) (pos : ℝ × ℝ) : StoreState :=
  { st with
    users := st.users.map (fun u =>
      if u.id == uid then { u with r := some pos.1, theta := some pos.2 } else u) }

/-- Embeds the Cypher `MERGE (u:User ...) SET ...` of `GraphDB.create_user`:
update the node when present, append it otherwise. -/
def mergeUserPos (st : StoreState) (uid : String) (pos : ℝ × ℝ) : StoreState :=
  if st.users.any (fun u => u.id == uid) then setUserPos st uid pos
  else { st with users := st.users ++ [{ id := uid, r := some pos.1, theta := some pos.2 }] }

/-- `GraphDB.create_user`: catches its own store exception and reports
`False`; it never raises. -/
def create_user (env : Env) (uid : String) (pos : ℝ × ℝ) (st : StoreState) :
    Bool × StoreState :=
  if env.writeFault then (false, st) else (true, mergeUserPos st uid pos)

/-- `GraphDB.get_user_position`: read the stored `(r, theta)`; when the user
is missing or a property is `None`, call `create_user` at the origin
(ignoring its Boolean result) and return `(0.0, 0.0)`. When the read
raises, the handler also calls `create_user` and returns `(0.0, 0.0)`;
since `create_user` catches its own exception, the `return None` line of
the source is unreachable for store-level faults and the returned option
is always `some`. The `Option` result type mirrors the Python signature. -/
def get_user_position (env : Env) (uid : String) (st : StoreState) :
    Option (ℝ × ℝ) × StoreState :=
  if env.readFault then
    (some (0, 0), (create_user env uid (0, 0) st).2)
  else
    match lookupUser st uid with
    | some u =>
      match u.r, u.theta with
      | some r, some θ => (some (r, θ), st)
      | some _, none => (some (0, 0), (create_user env uid (0, 0) st).2)
      | none, _ => (some (0, 0), (create_user env uid (0, 0) st).2)
    | none => (some (0, 0), (create_user env uid (0, 0) st).2)

/-- `GraphDB.update_user_position`: `MATCH ... SET`, catching store
exceptions (reported as `False`); matching zero nodes still reports
`True`. -/
def update_user_position (env : Env) (uid : String) (pos : ℝ × ℝ)
    (st : StoreState) : Bool × StoreState :=
  if env.writeFault then (false, st) else (true, setUserPos st uid pos)

/-- The record list produced by the Cypher query of
`GraphDB.find_scene_by_description`: case-insensitive substring filter in
default store order, truncated by `LIMIT $limit`. -/
def scene_hits (st : StoreState) (desc : String) (lim : ℕ) : List SceneHit :=
  ((st.scenes.filter (fun s => strContainsLower s.description desc)).take lim).map
    (fun s => { id := s.id, description := s.description,
                position := (s.r, s.theta), distance := none })

/-- `GraphDB.find_scene_by_description` (the caller uses the default limit
of 5): there is no `try/except` around `_run_read`, so a store fault
raises out of the method. -/
def find_scene_by_description (env : Env) (st : StoreState) (desc : String)
    (lim : ℕ) : Except Unit (List SceneHit) :=
  if env.readFault then .error () else .ok (scene_hits st desc lim)

open Classical in
/-- The candidate filter, raw-coordinate distance and `ORDER BY distance` of
`GraphDB.find_nearby_scenes`: per-axis bound on `r` and `theta`, distance
`sqrt((dr)^2 + (dtheta)^2)` computed on the raw pair. -/
noncomputable def nearby_hits (st : StoreState) (pos : ℝ × ℝ) (radius : ℝ) :
    List SceneHit :=
  let cands := st.scenes.filter
    (fun s => decide (|s.r - pos.1| ≤ radius ∧ |s.theta - pos.2| ≤ radius))
  let withDist := cands.map
    (fun s => (s, Real.sqrt ((s.r - pos.1) ^ 2 + (s.theta - pos.2) ^ 2)))
  let sorted := withDist.mergeSort (fun a b => decide (a.2 ≤ b.2))
  sorted.map (fun p =>
    { id := p.1.id, description := p.1.description,
      position := (p.1.r, p.1.theta), distance := some p.2 })

/-- `GraphDB.find_nearby_scenes`: no `try/except`, so a store fault raises
out of the method. -/
noncomputable def find_nearby_scenes (env : Env) (st : StoreState)
    (pos : ℝ × ℝ) (radius : ℝ) : Except Unit (List SceneHit) :=
  if env.readFault then .error () else .ok (nearby_hits st pos radius)

/-- `gds.similarity.cosine` on stored vectors. -/
noncomputable def cosineSim (a b : List ℝ) : ℝ :=
  (List.zipWith (fun x y => x * y) a b).sum /
    (Real.sqrt ((a.map (fun x => x ^ 2)).sum) *
      Real.sqrt ((b.map (fun x => x ^ 2)).sum))

/-- A similarity-search record of `GraphDB.find_similar_descriptions`; the
Cypher `RETURN` carries `id`, `description`, `labels` and `similarity`
and no coordinates. -/
structure SimHit where
  id : String
  description : String
  similarity : ℝ

open Classical in
/-- `GraphDB.find_similar_descriptions` restricted to label `Scene`: score
every node with a stored `description_vector`, keep those with
`similarity >= $min_similarity`, `ORDER BY similarity DESC`,
`LIMIT $limit`. -/
noncomputable def find_similar_descriptions (st : StoreState) (qv : List ℝ)
    (lim : ℕ) (minSim : ℝ) : List SimHit :=
  let scored := st.scenes.filterMap
    (fun s => s.description_vector.map (fun v => (s, cosineSim v qv)))
  let kept := scored.filter (fun p => decide (minSim ≤ p.2))
  let sorted := kept.mergeSort (fun a b => decide (b.2 ≤ a.2))
  (sorted.take lim).map
    (fun p => { id := p.1.id, description := p.1.description, similarity := p.2 })

/-- `divide.generate_embedding_768`: the encoder output guarded by the
dimension-768 check; any failure yields `none`. -/
def generate_embedding_768 (env : Env) (text : String) : Option (List ℝ) :=
  match env.embedText text with
  | none => none
  | some v => if v.length = 768 then some v else none

/-- `MovementService.find_destination_scene`: the embedding-similarity
destination resolver (similarity floor 0.6, limit 1); the surrounding
`try/except` turns a store fault into `none`, and an empty vector is
also rejected (the `if not vector` check). -/
noncomputable def find_destination_scene (env : Env) (st : StoreState)
    (description : String) : Option SimHit :=
  match generate_embedding_768 env description with
  | none => none
  | some vector =>
    if vector.isEmpty then none
    else if env.readFault then none
    else
      match find_similar_descriptions st vector 1 0.6 with
      | s :: _ => some s
      | [] => none

/-- `MovementService.extract_destination`: the destination-phrase oracle
call; a non-200 status, a transport fault, or an empty stripped reply
all yield `none`. -/
def extract_destination (env : Env) (command : String) : Option String :=
  match env.destOracle command with
  | none => none
  | some s =>
    if pyStrip s = "" then none else some (pyStrip s)

/-- The eight valid compass tokens, in source order. -/
def validDirections : List String := ["N", "NE", "E", "SE", "S", "SW", "W", "NW"]

/-- The Python two-argument `max`: the second argument only when strictly
larger. -/
def pymax (a b : ℚ) : ℚ := if a < b then b else a

/-- The Python two-argument `min`: the second argument only when strictly
smaller. -/
def pymin (a b : ℚ) : ℚ := if b < a then b else a

/-- `MovementService.extract_movement_details`: strip the oracle reply,
require exactly one comma (any other shape makes the tuple unpacking or
the comma test fail, yielding `None`), parse the distance with the
Python float parser (a parse failure is caught and yields `None`),
require a valid compass token, and clamp the distance into `[0.1, 2.0]`
unconditionally. -/
def extract_movement_details (env : Env) (command : String) :
    Option (String × ℚ) :=
  match env.moveOracle command with
  | none => none
  | some raw =>
    match (splitComma (pyStrip raw).toList).map List.asString with
    | [direction, diststr] =>
      match env.parseFloat diststr with
      | some v =>
        if validDirections.contains direction then
          some (direction, pymin (pymax v (mkRat 1 10)) 2)
        else none
      | none => none
    | _ => none

/-- The direction-to-degrees dictionary of
`MovementService.convert_direction_to_polar`; a missing key raises
`KeyError`, modelled as `none`. -/
noncomputable def direction_angles (d : String) : Option ℝ :=
  if d = "N" then some 90
  else if d = "NE" then some 45
  else if d = "E" then some 0
  else if d = "SE" then some 315
  else if d = "S" then some 270
  else if d = "SW" then some 225
  else if d = "W" then some 180
  else if d = "NW" then some 135
  else none

/-- `MovementService.convert_direction_to_polar`: look the direction up in
the angle table, convert to radians, and return
`(distance * cos theta, distance * sin theta)`. -/
noncomputable def convert_direction_to_polar (direction : String)
    (distance : ℝ) : Option (ℝ × ℝ) :=
  (direction_angles direction).map (fun deg =>
    (distance * Real.cos (deg * Real.pi / 180),
     distance * Real.sin (deg * Real.pi / 180)))

/-- `MovementService.process_movement`, the end-to-end command resolution:
load the position, try the destination phase (fuzzy substring lookup via
`GraphDB.find_scene_by_description`), otherwise the directional phase.
`Except.error` is an uncaught Python exception escaping the method. -/
noncomputable def process_movement (env : Env) (uid command : String)
    (st : StoreState) : Except Unit (MovementResult × StoreState) :=
  match get_user_position env uid st with
  | (none, st1) =>
    .ok ({ success := false, message := "⚠️ 无法获取用户当前位置",
           new_position := none, nearby_scenes := none }, st1)
  | (some current, st1) =>
    match extract_destination env command with
    | some destination =>
      match find_scene_by_description env st1 destination 5 with
      | .error e => .error e
      | .ok scenes =>
        match scenes with
        | scene :: _ =>
          match update_user_position env uid scene.position st1 with
          | (true, st2) =>
            .ok ({ success := true, message := "✅ 已到达: " ++ scene.description,
                   new_position := some scene.position,
                   nearby_scenes := some [scene] }, st2)
          | (false, st2) =>
            .ok ({ success := false, message := "⚠️ 找不到目的地: " ++ destination,
                   new_position := none, nearby_scenes := none }, st2)
        | [] =>
          .ok ({ success := false, message := "⚠️ 找不到目的地: " ++ destination,
                 new_position := none, nearby_scenes := none }, st1)
    | none =>
      match extract_movement_details env command with
      | none =>
        .ok ({ success := false, message := "⚠️ 无法理解移动指令",
               new_position := none, nearby_scenes := none }, st1)
      | some (direction, distance) =>
        match convert_direction_to_polar direction (distance : ℝ) with
        | none => .error ()
        | some delta =>
          match update_user_position env uid
              (current.1 + delta.1, current.2 + delta.2) st1 with
          | (true, st2) =>
            match find_nearby_scenes env st2
                (current.1 + delta.1, current.2 + delta.2) 2 with
            | .error e => .error e
            | .ok nearby =>
              .ok ({ success := true,
                     message := "✅ 已移动到 (" ++ env.fmt2 (current.1 + delta.1) ++
                       ", " ++ env.fmt2 (current.2 + delta.2) ++ ")",
                     new_position := some (current.1 + delta.1, current.2 + delta.2),
                     nearby_scenes := some nearby }, st2)
          | (false, st2) =>
            .ok ({ success := false, message := "⚠️ 更新位置失败",
                   new_position := none, nearby_scenes := none }, st2)


/-! ### Helper lemmas -/

/-- The unnormalised rational `1/10` used in the clamp agrees with division. -/
theorem mkRat_one_ten : (mkRat 1 10 : ℚ) = 1 / 10 := by
  norm_num [mkRat, Rat.normalize]

/-- The Python two-argument `max` agrees with the lattice `max` on `ℚ`. -/
theorem pymax_eq (a b : ℚ) : pymax a b = max a b := by
  unfold pymax
  rcases le_or_lt b a with h | h
  · rw [if_neg (not_lt.mpr h), max_eq_left h]
  · rw [if_pos h, max_eq_right h.le]

/-- The Python two-argument `min` agrees with the lattice `min` on `ℚ`. -/
theorem pymin_eq (a b : ℚ) : pymin a b = min a b := by
  unfold pymin
  rcases le_or_lt a b with h | h
  · rw [if_neg (not_lt.mpr h), min_eq_left h]
  · rw [if_pos h, min_eq_right h.le]

/-- The distance clamp of `extract_movement_details` is the mathematical
clamp into `[0.1, 2.0]`. -/
theorem clamp_eq (v : ℚ) : pymin (pymax v (mkRat 1 10)) 2 = min (max v (1 / 10)) 2 := by
  rw [pymax_eq, pymin_eq, mkRat_one_ten]

/-- Scanning an appended list when the first part has no hit. -/
theorem find?_append_of_none {α : Type} (p : α → Bool) (l₁ l₂ : List α)
    (h : l₁.find? p = none) : (l₁ ++ l₂).find? p = l₂.find? p := by
  induction l₁ with
  | nil => rfl
  | cons a as ih =>
    rcases hpa : p a with _ | _
    · rw [List.cons_append, List.find?_cons_of_neg _ (by simp [hpa])]
      rw [List.find?_cons_of_neg _ (by simp [hpa])] at h
      exact ih h
    · rw [List.find?_cons_of_pos _ hpa] at h
      exact absurd h (by simp)

/-- Mapping a guarded update over a list with no matching element is the
identity. -/
theorem map_update_of_no_match (uid : String) (pos : ℝ × ℝ) (l : List UserNode)
    (h : ∀ u ∈ l, (u.id == uid) = false) :
    l.map (fun u =>
      if u.id == uid then { u with r := some pos.1, theta := some pos.2 } else u) = l := by
  induction l with
  | nil => rfl
  | cons a as ih =>
    have ha := h a (by simp)
    simp only [List.map_cons, ha, if_neg, Bool.false_eq_true, not_false_eq_true, ih
      (fun u hu => h u (by simp [hu]))]

/-- A `MATCH ... SET` write for an absent user id is a no-op on the store. -/
theorem setUserPos_of_absent (st : StoreState) (uid : String) (pos : ℝ × ℝ)
    (hu : lookupUser st uid = none) : setUserPos st uid pos = st := by
  unfold setUserPos
  rw [map_update_of_no_match uid pos st.users]
  intro u hu'
  have := List.find?_eq_none.mp hu u hu'
  simpa using this

/-- Reading the position of a stored user with both coordinates present. -/
theorem get_user_position_found (env : Env) (uid : String) (st : StoreState)
    (r θ : ℝ) (hr : env.readFault = false)
    (hu : lookupUser st uid = some { id := uid, r := some r, theta := some θ }) :
    get_user_position env uid st = (some (r, θ), st) := by
  simp [get_user_position, hr, hu]

/-- A direction returned by `extract_movement_details` always has an entry in
the angle table (so the later `KeyError` branch is unreachable). -/
theorem extract_movement_details_angle (env : Env) (command d : String) (q : ℚ)
    (h : extract_movement_details env command = some (d, q)) :
    ∃ a : ℝ, direction_angles d = some a := by
  unfold extract_movement_details at h
  split at h
  · exact absurd h (by simp)
  · split at h
    · split at h
      · split at h
        · rename_i raw direction diststr v hcont
          injection h with h1
          rw [Prod.mk.injEq] at h1
          obtain ⟨rfl, rfl⟩ := h1
          simp only [validDirections, List.contains_eq_any_beq, List.any_cons,
            List.any_nil, Bool.or_false, Bool.or_eq_true, beq_iff_eq] at hcont
          rcases hcont with rfl | rfl | rfl | rfl | rfl | rfl | rfl | rfl
          · exact ⟨90, rfl⟩
          · exact ⟨45, rfl⟩
          · exact ⟨0, rfl⟩
          · exact ⟨315, rfl⟩
          · exact ⟨270, rfl⟩
          · exact ⟨225, rfl⟩
          · exact ⟨180, rfl⟩
          · exact ⟨135, rfl⟩
        · exact absurd h (by simp)
      · exact absurd h (by simp)
    · exact absurd h (by simp)

/-! ### Claim theorems -/

/-- C3: for every compass direction `d` (every key of the angle table,
mapped to `a` degrees) and every distance `x` in `[0.1, 2.0]`,
`convert_direction_to_polar d x` is the (deterministic) value
`(x * cos (a * pi / 180), x * sin (a * pi / 180))`; the table reads
E=0, NE=45, N=90, NW=135, W=180, SW=225, S=270, SE=315; and from the
origin, direction `E` at distance `1.0` yields the delta `(1.0, 0.0)`,
hence new position `(1.0, 0.0)`. -/
theorem C3_theorem :
    (∀ (d : String) (a x : ℝ), direction_angles d = some a →
      (0.1 : ℝ) ≤ x → x ≤ 2 →
      convert_direction_to_polar d x =
        some (x * Real.cos (a * Real.pi / 180), x * Real.sin (a * Real.pi / 180))) ∧
    direction_angles "E" = some 0 ∧ direction_angles "NE" = some 45 ∧
    direction_angles "N" = some 90 ∧ direction_angles "NW" = some 135 ∧
    direction_angles "W" = some 180 ∧ direction_angles "SW" = some 225 ∧
    direction_angles "S" = some 270 ∧ direction_angles "SE" = some 315 ∧
    convert_direction_to_polar "E" 1 = some (1, 0) := by
  refine ⟨?_, rfl, rfl, rfl, rfl, rfl, rfl, rfl, rfl, ?_⟩
  · intro d a x ha _ _
    rw [convert_direction_to_polar, ha, Option.map_some']
  · have hE : direction_angles "E" = some 0 := rfl
    rw [convert_direction_to_polar, hE, Option.map_some']
    norm_num

/-- Witness for C3 at direction `E`, angle 0, distance 1. -/
theorem C3_witness :
    (0.1 : ℝ) ≤ 1 ∧ (1 : ℝ) ≤ 2 ∧
    convert_direction_to_polar "E" 1 =
      some (1 * Real.cos (0 * Real.pi / 180), 1 * Real.sin (0 * Real.pi / 180)) :=
  ⟨by norm_num, by norm_num, C3_theorem.1 "E" 0 1 rfl (by norm_num) (by norm_num)⟩

/-- C5: when the direction-oracle reply strips and splits into a direction
token and a distance token, `extract_movement_details` returns the clamp
`min (max v (1/10)) 2` of the parsed distance `v` whenever the token is a
valid compass value, and `none` when the token is invalid or the distance
does not parse as a number. -/
theorem C5_theorem (env : Env) (command raw d s : String) (v : ℚ)
    (hraw : env.moveOracle command = some raw)
    (hsplit : (splitComma (pyStrip raw).toList).map List.asString = [d, s]) :
    (env.parseFloat s = some v → validDirections.contains d = true →
      extract_movement_details env command = some (d, min (max v (1 / 10)) 2)) ∧
    (env.parseFloat s = some v → validDirections.contains d = false →
      extract_movement_details env command = none) ∧
    (env.parseFloat s = none → extract_movement_details env command = none) := by
  refine ⟨?_, ?_, ?_⟩ <;> intro h1
  · intro h2
    rw [extract_movement_details, hraw]
    simp only [hsplit, h1, h2, if_true, clamp_eq]
  · intro h2
    rw [extract_movement_details, hraw]
    simp only [hsplit, h1, h2, Bool.false_eq_true, if_false]
  · rw [extract_movement_details, hraw]
    simp only [hsplit, h1]

/-- Witness environment for C5: the oracle answers `E,5.0` and the float
parser reads `5.0` as 5. -/
def envC5 : Env := {
  destOracle := fun _ => none,
  moveOracle := fun _ => some "E,5.0",
  parseFloat := fun s => if s = "5.0" then some 5 else none,
  embedText := fun _ => none,
  fmt2 := fun _ => "",
  readFault := false, writeFault := false }

/-- Witness for C5: the raw oracle distance 5.0 is clamped to 2.0. -/
theorem C5_witness :
    extract_movement_details envC5 "c" = some ("E", 2) :=
  ((C5_theorem envC5 "c" "E,5.0" "E" "5.0" 5 rfl rfl).1 rfl rfl).trans
    (by norm_num)

/-- C6: in a fault-free store, `get_user_position` on an absent user id
provisions the user at the origin (a `MERGE` write, not an error: the
position `some (0, 0)` is returned) and a second read with no movement
in between returns the same `(0, 0)` without further change. -/
theorem C6_theorem (env : Env) (uid : String) (st : StoreState)
    (hr : env.readFault = false) (hw : env.writeFault = false)
    (hu : lookupUser st uid = none) :
    get_user_position env uid st = (some (0, 0), mergeUserPos st uid (0, 0)) ∧
    get_user_position env uid (mergeUserPos st uid (0, 0)) =
      (some (0, 0), mergeUserPos st uid (0, 0)) := by
  have hany : st.users.any (fun u => u.id == uid) = false := by
    rw [List.any_eq_false]
    intro u hu'
    simpa using List.find?_eq_none.mp hu u hu'
  constructor
  · simp [get_user_position, hr, hu, create_user, hw]
  · have h2 : lookupUser (mergeUserPos st uid (0, 0)) uid =
        some { id := uid, r := some 0, theta := some 0 } := by
      unfold mergeUserPos
      rw [hany]
      unfold lookupUser at hu ⊢
      simp only [Bool.false_eq_true, if_false]
      rw [find?_append_of_none _ _ _ hu]
      simp [List.find?]
    simp only [get_user_position, hr, Bool.false_eq_true, if_false, h2]

/-- Witness environment for C6 (no faults, oracles irrelevant). -/
def envC6 : Env := {
  destOracle := fun _ => none, moveOracle := fun _ => none,
  parseFloat := fun _ => none, embedText := fun _ => none,
  fmt2 := fun _ => "", readFault := false, writeFault := false }

/-- Witness store for C6: no users. -/
def stC6 : StoreState := { users := [], scenes := [] }

/-- Witness for C6: first read provisions the user at the origin, second
read returns the same position unchanged. -/
theorem C6_witness :
    get_user_position envC6 "u" stC6 = (some (0, 0), mergeUserPos stC6 "u" (0, 0)) ∧
    get_user_position envC6 "u" (mergeUserPos stC6 "u" (0, 0)) =
      (some (0, 0), mergeUserPos stC6 "u" (0, 0)) :=
  C6_theorem envC6 "u" stC6 rfl rfl rfl

/-- C10: with the write path healthy, `update_user_position` reports `True`
even for a user id with no `User` node: the `MATCH ... SET` matches zero
nodes and the store is left unchanged, so a `True` return does not imply
the position was stored. -/
theorem C10_theorem (env : Env) (uid : String) (pos : ℝ × ℝ) (st : StoreState)
    (hw : env.writeFault = false) (hu : lookupUser st uid = none) :
    update_user_position env uid pos st = (true, st) := by
  rw [update_user_position, hw]
  simp only [Bool.false_eq_true, if_false, setUserPos_of_absent st uid pos hu]

/-- Witness environment for C10 (no faults, oracles irrelevant). -/
def envC10 : Env := {
  destOracle := fun _ => none, moveOracle := fun _ => none,
  parseFloat := fun _ => none, embedText := fun _ => none,
  fmt2 := fun _ => "", readFault := false, writeFault := false }

/-- Witness store for C10: no users. -/
def stC10 : StoreState := { users := [], scenes := [] }

/-- Witness for C10: the write for an absent user reports success and
leaves the store unchanged. -/
theorem C10_witness :
    update_user_position envC10 "u" (1, 2) stC10 = (true, stC10) :=
  C10_theorem envC10 "u" (1, 2) stC10 rfl rfl

/-- C7: with a healthy read path and a stored user position, a command with
no destination phrase and an unparsable direction/distance pair yields the
command-not-understood failure (the Chinese literal of the source) with
null position and nearby list, and the store is left completely
unchanged (no write happens on this path). -/
theorem C7_theorem (env : Env) (uid command : String) (st : StoreState)
    (r θ : ℝ) (hr : env.readFault = false)
    (hu : lookupUser st uid = some { id := uid, r := some r, theta := some θ })
    (hdest : extract_destination env command = none)
    (hmove : extract_movement_details env command = none) :
    process_movement env uid command st =
      .ok ({ success := false, message := "⚠️ 无法理解移动指令",
             new_position := none, nearby_scenes := none }, st) := by
  have hget := get_user_position_found env uid st r θ hr hu
  simp only [process_movement, hget, hdest, hmove]

/-- Witness environment for C7: both oracles fail. -/
def envC7 : Env := {
  destOracle := fun _ => none, moveOracle := fun _ => none,
  parseFloat := fun _ => none, embedText := fun _ => none,
  fmt2 := fun _ => "", readFault := false, writeFault := false }

/-- Witness store for C7: one user at the origin. -/
def stC7 : StoreState :=
  { users := [{ id := "u", r := some 0, theta := some 0 }], scenes := [] }

/-- Witness for C7. -/
theorem C7_witness :
    process_movement envC7 "u" "c" stC7 =
      .ok ({ success := false, message := "⚠️ 无法理解移动指令",
             new_position := none, nearby_scenes := none }, stC7) :=
  C7_theorem envC7 "u" "c" stC7 0 0 rfl rfl rfl rfl

/-- C8: with a healthy read path and a stored user position, a non-empty
destination phrase whose substring lookup yields no hit terminates with
the destination-not-found failure and the store unchanged. -/
theorem C8_theorem (env : Env) (uid command : String) (st : StoreState)
    (r θ : ℝ) (dest : String) (hr : env.readFault = false)
    (hu : lookupUser st uid = some { id := uid, r := some r, theta := some θ })
    (hdest : extract_destination env command = some dest)
    (hmiss : scene_hits st dest 5 = []) :
    process_movement env uid command st =
      .ok ({ success := false, message := "⚠️ 找不到目的地: " ++ dest,
             new_position := none, nearby_scenes := none }, st) := by
  have hget := get_user_position_found env uid st r θ hr hu
  simp only [process_movement, hget, hdest, find_scene_by_description, hr,
    Bool.false_eq_true, if_false, hmiss]

/-- Witness environment for C8: the destination oracle extracts a phrase,
the store has no matching scene. -/
def envC8 : Env := {
  destOracle := fun _ => some "水晶宫",
  moveOracle := fun _ => none, parseFloat := fun _ => none,
  embedText := fun _ => none, fmt2 := fun _ => "",
  readFault := false, writeFault := false }

/-- Witness store for C8: one user at the origin, no scenes. -/
def stC8 : StoreState :=
  { users := [{ id := "u", r := some 0, theta := some 0 }], scenes := [] }

/-- Witness for C8. -/
theorem C8_witness :
    process_movement envC8 "u" "c" stC8 =
      .ok ({ success := false, message := "⚠️ 找不到目的地: " ++ "水晶宫",
             new_position := none, nearby_scenes := none }, stC8) :=
  C8_theorem envC8 "u" "c" stC8 0 0 "水晶宫" rfl rfl rfl rfl

/-- Counterexample environment for C1: the destination oracle extracts a
phrase, the embedding oracle produces nothing, the store is healthy. -/
def envC1 : Env := {
  destOracle := fun _ => some " 洞穴 ",
  moveOracle := fun _ => none, parseFloat := fun _ => none,
  embedText := fun _ => none, fmt2 := fun _ => "",
  readFault := false, writeFault := false }

/-- Counterexample store for C1: one user at the origin and one scene whose
description contains the phrase as a substring but carries no stored
embedding. -/
def stC1 : StoreState :=
  { users := [{ id := "u", r := some 0, theta := some 0 }],
    scenes := [{ id := "s1", description := "一个黑暗的洞穴", r := 3, theta := 4,
                 description_vector := none }] }

/-- The substring hit of `stC1` for the phrase `洞穴`. -/
def hitC1 : SceneHit :=
  { id := "s1", description := "一个黑暗的洞穴", position := (3, 4), distance := none }

/-- Counterexample for C1: the destination phase extracts the non-empty
phrase `洞穴`; the embedding-similarity resolver
(`find_destination_scene`, floor 0.6, limit 1) returns `none` — no
embedding of the phrase can even be obtained — yet `process_movement`
resolves the command successfully to a scene, via the substring query
`find_scene_by_description`. Hence the destination phrase is not resolved
through the embedding resolver. -/
theorem C1_counterexample :
    extract_destination envC1 "去洞穴" = some "洞穴" ∧
    find_destination_scene envC1 stC1 "洞穴" = none ∧
    process_movement envC1 "u" "去洞穴" stC1 =
      .ok ({ success := true, message := "✅ 已到达: " ++ "一个黑暗的洞穴",
             new_position := some (3, 4), nearby_scenes := some [hitC1] },
           setUserPos stC1 "u" (3, 4)) :=
  ⟨rfl, rfl, rfl⟩

/-- C1 (amended): with a healthy read path and a stored user position, a
non-empty destination phrase is resolved by the case-insensitive
substring query `find_scene_by_description` with limit 5, taking the
first hit: no hit terminates with the destination-not-found failure; a
first hit moves the user to the scene position on a healthy write, and
falls back to the destination-not-found failure when the write fails. -/
theorem C1_amended (env : Env) (uid command : String) (st : StoreState)
    (r θ : ℝ) (dest : String) (hr : env.readFault = false)
    (hu : lookupUser st uid = some { id := uid, r := some r, theta := some θ })
    (hdest : extract_destination env command = some dest) :
    (scene_hits st dest 5 = [] →
      process_movement env uid command st =
        .ok ({ success := false, message := "⚠️ 找不到目的地: " ++ dest,
               new_position := none, nearby_scenes := none }, st)) ∧
    (∀ (s : SceneHit) (rest : List SceneHit), scene_hits st dest 5 = s :: rest →
      (env.writeFault = false →
        process_movement env uid command st =
          .ok ({ success := true, message := "✅ 已到达: " ++ s.description,
                 new_position := some s.position, nearby_scenes := some [s] },
               setUserPos st uid s.position)) ∧
      (env.writeFault = true →
        process_movement env uid command st =
          .ok ({ success := false, message := "⚠️ 找不到目的地: " ++ dest,
                 new_position := none, nearby_scenes := none }, st))) := by
  have hget := get_user_position_found env uid st r θ hr hu
  constructor
  · intro hmiss
    simp only [process_movement, hget, hdest, find_scene_by_description, hr,
      Bool.false_eq_true, if_false, hmiss]
  · intro s rest hhit
    constructor <;> intro hwf
    · simp only [process_movement, hget, hdest, find_scene_by_description, hr,
        Bool.false_eq_true, if_false, hhit, update_user_position, hwf]
    · simp only [process_movement, hget, hdest, find_scene_by_description, hr,
        Bool.false_eq_true, if_false, hhit, update_user_position, hwf, if_true]

/-- Witness for the amended C1, on the counterexample store: the first (and
only) substring hit becomes the destination. -/
theorem C1_amended_witness :
    process_movement envC1 "u" "去洞穴" stC1 =
      .ok ({ success := true, message := "✅ 已到达: " ++ hitC1.description,
             new_position := some hitC1.position, nearby_scenes := some [hitC1] },
           setUserPos stC1 "u" hitC1.position) :=
  ((C1_amended envC1 "u" "去洞穴" stC1 0 0 "洞穴" rfl rfl rfl).2
    hitC1 [] rfl).1 rfl

/-- Counterexample environment for C2: the store read path is faulty while
the destination oracle extracts a phrase. -/
def envC2 : Env := {
  destOracle := fun _ => some "洞穴",
  moveOracle := fun _ => none, parseFloat := fun _ => none,
  embedText := fun _ => none, fmt2 := fun _ => "",
  readFault := true, writeFault := false }

/-- Counterexample store for C2. -/
def stC2 : StoreState := { users := [], scenes := [] }

/-- Counterexample for C2: with a store-level read fault, the position load
swallows the fault (returns the origin), but the destination lookup
`find_scene_by_description` has no exception handler, so the exception
escapes `process_movement` instead of becoming a structured failure
result. -/
theorem C2_counterexample :
    process_movement envC2 "u" "c" stC2 = .error () :=
  rfl

/-- C2 (amended): oracle failures never escape `process_movement`, and
position read/write faults are absorbed into structured results, so with
a healthy store read path every request returns a structured
`MovementResult`; only a store fault inside the destination scene lookup
or the nearby-scene query escapes as an exception. -/
theorem C2_amended (env : Env) (uid command : String) (st : StoreState)
    (hr : env.readFault = false) :
    (process_movement env uid command st).isOk = true := by
  rcases hget : get_user_position env uid st with ⟨cur, st1⟩
  rcases cur with _ | current
  · simp [process_movement, hget, Except.isOk, Except.toBool]
  · rcases hdest : extract_destination env command with _ | dest
    · rcases hmove : extract_movement_details env command with _ | ⟨d, q⟩
      · simp [process_movement, hget, hdest, hmove, Except.isOk, Except.toBool]
      · obtain ⟨a, ha⟩ := extract_movement_details_angle env command d q hmove
        have hconv : convert_direction_to_polar d (q : ℝ) =
            some ((q : ℝ) * Real.cos (a * Real.pi / 180),
              (q : ℝ) * Real.sin (a * Real.pi / 180)) := by
          rw [convert_direction_to_polar, ha, Option.map_some']
        rcases hwf : env.writeFault with _ | _
        · simp [process_movement, hget, hdest, hmove, hconv, update_user_position,
            hwf, find_nearby_scenes, hr, Except.isOk, Except.toBool]
        · simp [process_movement, hget, hdest, hmove, hconv, update_user_position,
            hwf, Except.isOk, Except.toBool]
    · rcases hsc : scene_hits st1 dest 5 with _ | ⟨s, rest⟩
      · simp [process_movement, hget, hdest, find_scene_by_description, hr, hsc,
          Except.isOk, Except.toBool]
      · rcases hwf : env.writeFault with _ | _
        · simp [process_movement, hget, hdest, find_scene_by_description, hr, hsc,
            update_user_position, hwf, Except.isOk, Except.toBool]
        · simp [process_movement, hget, hdest, find_scene_by_description, hr, hsc,
            update_user_position, hwf, Except.isOk, Except.toBool]

/-- Witness environment for the amended C2: healthy store, failing oracles. -/
def envC2w : Env := {
  destOracle := fun _ => none, moveOracle := fun _ => none,
  parseFloat := fun _ => none, embedText := fun _ => none,
  fmt2 := fun _ => "", readFault := false, writeFault := false }

/-- Witness store for the amended C2. -/
def stC2w : StoreState := { users := [], scenes := [] }

/-- Witness for the amended C2. -/
theorem C2_amended_witness :
    (process_movement envC2w "u" "c" stC2w).isOk = true :=
  C2_amended envC2w "u" "c" stC2w rfl

/-- Counterexample environment for C4: the store is unreachable (both the
read and the write path fault) and both oracles fail. -/
def envC4 : Env := {
  destOracle := fun _ => none, moveOracle := fun _ => none,
  parseFloat := fun _ => none, embedText := fun _ => none,
  fmt2 := fun _ => "", readFault := true, writeFault := true }

/-- Counterexample store for C4. -/
def stC4 : StoreState := { users := [], scenes := [] }

/-- Counterexample for C4: with the store unreachable at the load-position
step, `process_movement` does not terminate with the
cannot-determine-position failure; it proceeds into the movement phases
(here reaching the directional phase and its command-not-understood
failure), because `get_user_position` swallows the fault and reports the
origin. -/
theorem C4_counterexample :
    process_movement envC4 "u" "c" stC4 =
      .ok ({ success := false, message := "⚠️ 无法理解移动指令",
             new_position := none, nearby_scenes := none }, stC4) ∧
    ("⚠️ 无法理解移动指令" : String) ≠ "⚠️ 无法获取用户当前位置" :=
  ⟨rfl, by decide⟩

/-- C4 (amended): when the store is unreachable (reads and writes both
fault), `get_user_position` swallows the fault and returns the origin
with the store unchanged (the silent re-provisioning write also fails),
so `process_movement` enters the movement phases with current position
`(0, 0)`; with no destination phrase and an unparsable direction pair it
returns the command-not-understood failure — the
cannot-determine-position failure branch is not taken. -/
theorem C4_amended (env : Env) (uid command : String) (st : StoreState)
    (h1 : env.readFault = true) (h2 : env.writeFault = true)
    (hdest : extract_destination env command = none)
    (hmove : extract_movement_details env command = none) :
    get_user_position env uid st = (some (0, 0), st) ∧
    process_movement env uid command st =
      .ok ({ success := false, message := "⚠️ 无法理解移动指令",
             new_position := none, nearby_scenes := none }, st) := by
  have hget : get_user_position env uid st = (some (0, 0), st) := by
    simp only [get_user_position, h1, if_true, create_user, h2]
  exact ⟨hget, by simp only [process_movement, hget, hdest, hmove]⟩

/-- Witness for the amended C4 (store unreachable, oracles failing). -/
theorem C4_amended_witness :
    get_user_position envC4 "u" stC4 = (some (0, 0), stC4) ∧
    process_movement envC4 "u" "c" stC4 =
      .ok ({ success := false, message := "⚠️ 无法理解移动指令",
             new_position := none, nearby_scenes := none }, stC4) :=
  C4_amended envC4 "u" "c" stC4 rfl rfl rfl rfl

/-- C9: with a healthy read path, a stored user position and no destination
phrase, a resolved `(direction, distance)` pair is converted through the
angle table to the delta `(q cos(a pi/180), q sin(a pi/180))`, added
componentwise to the current position and persisted; on a healthy write
the result is success with the new position and the nearby scenes at
fixed radius 2.0 (possibly the empty list), and on a write fault the
result is the update-failure message with the store unchanged. -/
theorem C9_theorem (env : Env) (uid command : String) (st : StoreState)
    (r θ : ℝ) (d : String) (q : ℚ) (a : ℝ)
    (hr : env.readFault = false)
    (hu : lookupUser st uid = some { id := uid, r := some r, theta := some θ })
    (hdest : extract_destination env command = none)
    (hmove : extract_movement_details env command = some (d, q))
    (ha : direction_angles d = some a) :
    (env.writeFault = false →
      process_movement env uid command st =
        .ok ({ success := true,
               message := "✅ 已移动到 (" ++
                 env.fmt2 (r + (q : ℝ) * Real.cos (a * Real.pi / 180)) ++ ", " ++
                 env.fmt2 (θ + (q : ℝ) * Real.sin (a * Real.pi / 180)) ++ ")",
               new_position := some (r + (q : ℝ) * Real.cos (a * Real.pi / 180),
                 θ + (q : ℝ) * Real.sin (a * Real.pi / 180)),
               nearby_scenes := some (nearby_hits
                 (setUserPos st uid (r + (q : ℝ) * Real.cos (a * Real.pi / 180),
                   θ + (q : ℝ) * Real.sin (a * Real.pi / 180)))
                 (r + (q : ℝ) * Real.cos (a * Real.pi / 180),
                   θ + (q : ℝ) * Real.sin (a * Real.pi / 180)) 2) },
             setUserPos st uid (r + (q : ℝ) * Real.cos (a * Real.pi / 180),
               θ + (q : ℝ) * Real.sin (a * Real.pi / 180)))) ∧
    (env.writeFault = true →
      process_movement env uid command st =
        .ok ({ success := false, message := "⚠️ 更新位置失败",
               new_position := none, nearby_scenes := none }, st)) := by
  have hget := get_user_position_found env uid st r θ hr hu
  have hconv : convert_direction_to_polar d (q : ℝ) =
      some ((q : ℝ) * Real.cos (a * Real.pi / 180),
        (q : ℝ) * Real.sin (a * Real.pi / 180)) := by
    rw [convert_direction_to_polar, ha, Option.map_some']
  constructor <;> intro hwf
  · simp only [process_movement, hget, hdest, hmove, hconv, update_user_position,
      hwf, Bool.false_eq_true, if_false, find_nearby_scenes, hr]
  · simp only [process_movement, hget, hdest, hmove, hconv, update_user_position,
      hwf, if_true]

/-- Witness environment for C9: the direction oracle answers `E,1.0`. -/
def envC9 : Env := {
  destOracle := fun _ => none,
  moveOracle := fun _ => some "E,1.0",
  parseFloat := fun s => if s = "1.0" then some 1 else none,
  embedText := fun _ => none,
  fmt2 := fun _ => "p",
  readFault := false, writeFault := false }

/-- Witness store for C9: one user at the origin, no scenes. -/
def stC9 : StoreState :=
  { users := [{ id := "u", r := some 0, theta := some 0 }], scenes := [] }

/-- Witness for C9: direction `E` at distance 1 from the origin. -/
theorem C9_witness :
    process_movement envC9 "u" "c" stC9 =
      .ok ({ success := true,
             message := "✅ 已移动到 (" ++
               envC9.fmt2 (0 + ((1 : ℚ) : ℝ) * Real.cos (0 * Real.pi / 180)) ++ ", " ++
               envC9.fmt2 (0 + ((1 : ℚ) : ℝ) * Real.sin (0 * Real.pi / 180)) ++ ")",
             new_position := some (0 + ((1 : ℚ) : ℝ) * Real.cos (0 * Real.pi / 180),
               0 + ((1 : ℚ) : ℝ) * Real.sin (0 * Real.pi / 180)),
             nearby_scenes := some (nearby_hits
               (setUserPos stC9 "u" (0 + ((1 : ℚ) : ℝ) * Real.cos (0 * Real.pi / 180),
                 0 + ((1 : ℚ) : ℝ) * Real.sin (0 * Real.pi / 180)))
               (0 + ((1 : ℚ) : ℝ) * Real.cos (0 * Real.pi / 180),
                 0 + ((1 : ℚ) : ℝ) * Real.sin (0 * Real.pi / 180)) 2) },
           setUserPos stC9 "u" (0 + ((1 : ℚ) : ℝ) * Real.cos (0 * Real.pi / 180),
             0 + ((1 : ℚ) : ℝ) * Real.sin (0 * Real.pi / 180))) :=
  (C9_theorem envC9 "u" "c" stC9 0 0 "E" 1 0 rfl rfl rfl rfl rfl).1 rfl
